import Mathlib

set_option maxHeartbeats 2000000
set_option maxRecDepth 100000

/-
Verification of the dungeon-generation core in src/world/world_map.rs.

The Rust source is shallowly embedded below: machine integers (i32, usize)
become Int/Nat with the `as usize` cast modelled explicitly; panics
(assert failures, out-of-range indexing, rand's empty-range panic) become
`none`; the external `astar` crate is modelled as an oracle parameter
`astarFn` of the generator; the external random source (rand::Rng) is
modelled as a stream of naturals from which `genRange lo hi` produces a
value in [lo, hi) exactly when lo < hi, which is the uniform half-open
range contract the spec states.
-/

namespace Roguelike

/-- Integer grid coordinate; embeds `struct Location` (fields x, y : i32). -/
structure Location where
  x : Int
  y : Int
deriving DecidableEq

/-- Embeds `enum Terrain { Debug, Nothing, Floor, Wall }`. -/
inductive Terrain where
  | debug
  | nothing
  | floor
  | wall
deriving DecidableEq

/-- Embeds `struct Entity { id: u64 }`. -/
structure Entity where
  id : Nat
deriving DecidableEq

/-- Embeds `struct Tile { terrain: Terrain, entities: Vec<Entity> }`. -/
structure Tile where
  terrain : Terrain
  entities : List Entity
deriving DecidableEq

/-- Embeds `Tile::new`: a tile with the given terrain and no entities. -/
def Tile.new (t : Terrain) : Tile := ⟨t, []⟩

/-- Embeds `struct WorldMap { width: i32, height: i32, tiles: Vec<Tile> }`. -/
structure WorldMap where
  width : Int
  height : Int
  tiles : List Tile
deriving DecidableEq

/-- Embeds `Location::manhattan` with its branch-based absolute values. -/
def Location.manhattan (a b : Location) : Int :=
  (if b.x < a.x then a.x - b.x else b.x - a.x) +
    (if b.y < a.y then a.y - b.y else b.y - a.y)

/-- Model of a random source: an infinite stream of naturals and a cursor.
Quantifying over all streams covers every source satisfying the spec's
uniform half-open range contract. -/
structure Rng where
  stream : Nat → Nat
  pos : Nat

/-- Draw the next raw value from the stream. -/
def Rng.next (r : Rng) : Nat × Rng :=
  (r.stream r.pos, ⟨r.stream, r.pos + 1⟩)

/-- Embeds `rng.gen_range(lo, hi)`: uniform in [lo, hi); panics (none) when
the range is empty, exactly as rand's gen_range does when lo >= hi. -/
def genRange (lo hi : Int) (r : Rng) : Option (Int × Rng) :=
  if lo < hi then
    let (s, r2) := r.next
    some (lo + ((s % (hi - lo).toNat : Nat) : Int), r2)
  else none

/-- Embeds `IterRandomExt::random`: collect the sequence, assert it is
non-empty, then draw an index with `gen_range(0, len - 1)` and return that
element.  The half-open upper bound `len - 1` is taken verbatim from the
source (world_map.rs line 361). -/
def random {α : Type} (l : List α) (r : Rng) : Option (α × Rng) :=
  if 0 < l.length then
    match genRange 0 ((l.length : Int) - 1) r with
    | some (i, r2) => (l[i.toNat]?).map fun a => (a, r2)
    | none => none
  else none

/-- Model of Rust's `as usize` cast on the i32 index value: the cast sign
extends, so a negative value v becomes 2^64 + v; wrap into [0, 2^64). -/
def castUsize (v : Int) : Nat := (v % (18446744073709551616 : Int)).toNat

/-- The row-major index expression `loc.y * self.width + loc.x`, computed
here in exact integer arithmetic.  The source evaluates it in i32 — that
wraps at 2^32 in release builds and panics on overflow in debug builds —
so this exact model agrees with the source precisely when the i32
evaluation does not overflow (neither the product loc.y * width nor the
sum leaves the i32 range); the tile-access fault characterization below
assumes exactly that regime, where the two build profiles also agree with
each other. -/
def tileIndex (w : Int) (loc : Location) : Int := loc.y * w + loc.x

/-- Embeds `WorldMap::get_tile`: compute the row-major index, cast to usize,
assert it is within the buffer (panic = none), and return the tile. -/
def WorldMap.getTile (m : WorldMap) (loc : Location) : Option Tile :=
  let idx := castUsize (tileIndex m.width loc)
  if h : idx < m.tiles.length then some m.tiles[idx] else none

/-- The terrain seen through `get_tile`, when the access does not fault. -/
def terrainAt (m : WorldMap) (loc : Location) : Option Terrain :=
  (m.getTile loc).map Tile.terrain

/-- Embeds `WorldMap::get_tile_mut` as used by the generator: overwrite the
terrain of the addressed tile, keeping its entities.  Faults (none) under
exactly the same index condition as `get_tile`. -/
def setTerrain (m : WorldMap) (loc : Location) (t : Terrain) : Option WorldMap :=
  let idx := castUsize (tileIndex m.width loc)
  if h : idx < m.tiles.length then
    some { m with tiles := m.tiles.set idx { m.tiles[idx] with terrain := t } }
  else none

/-- Whether a location lies in [0,width) x [0,height): the spec's bounds. -/
def inBoundsB (m : WorldMap) (l : Location) : Bool :=
  decide (0 ≤ l.x ∧ l.x < m.width ∧ 0 ≤ l.y ∧ l.y < m.height)

/-- Embeds `WorldMap::get_adjacent`: the axis-aligned neighbours passing the
source's four directional bound checks, in source order (left, up, right,
down). -/
def getAdjacent (m : WorldMap) (loc : Location) : List Location :=
  (if 0 < loc.x then [Location.mk (loc.x - 1) loc.y] else []) ++
    (if 0 < loc.y then [Location.mk loc.x (loc.y - 1)] else []) ++
      (if loc.x < m.width - 1 then [Location.mk (loc.x + 1) loc.y] else []) ++
        (if loc.y < m.height - 1 then [Location.mk loc.x (loc.y + 1)] else [])

/-- Embeds `NeighborIterator::new` followed by full iteration: the adjacent
cells whose terrain is Nothing, each paired with edge cost 1. -/
def neighborList (m : WorldMap) (loc : Location) : List (Location × Int) :=
  ((getAdjacent m loc).filter fun l =>
      decide (terrainAt m l = some Terrain.nothing)).map fun l => (l, 1)

/-- Embeds `struct ConnectRooms`: the A* search problem over the map. -/
structure ConnectRooms where
  world : WorldMap
  start : Location
  endLoc : Location

/-- Embeds `SearchProblem::start`. -/
def ConnectRooms.startLoc (c : ConnectRooms) : Location := c.start

/-- Embeds `SearchProblem::is_end`. -/
def ConnectRooms.isEnd (c : ConnectRooms) (loc : Location) : Bool :=
  decide (loc = c.endLoc)

/-- Embeds `SearchProblem::heuristic`: Manhattan distance to the end. -/
def ConnectRooms.heuristic (c : ConnectRooms) (loc : Location) : Int :=
  loc.manhattan c.endLoc

/-- Embeds `SearchProblem::neighbors`. -/
def ConnectRooms.neighbors (c : ConnectRooms) (loc : Location) : List (Location × Int) :=
  neighborList c.world loc

/-- Embeds `struct Room` (origin, size, cached covered-cell list). -/
structure Room where
  x : Int
  y : Int
  width : Int
  height : Int
  locs : List Location
deriving DecidableEq

/-- The cell list built by `Room::new`: x-major double loop
`for i in x..x+width { for j in y..y+height { push (i, j) } }`. -/
def roomLocs (x y w h : Int) : List Location :=
  (List.range w.toNat).flatMap fun i =>
    (List.range h.toNat).map fun j => Location.mk (x + Int.ofNat i) (y + Int.ofNat j)

/-- A room value with the cached cell list, without the constructor assert. -/
def Room.make (x y w h : Int) : Room := ⟨x, y, w, h, roomLocs x y w h⟩

/-- Embeds `Room::new` with its assert `x >= 0 && y >= 0 && width > 0 &&
height > 0` (violation = none). -/
def roomNew (x y w h : Int) : Option Room :=
  if 0 ≤ x ∧ 0 ≤ y ∧ 0 < w ∧ 0 < h then some (Room.make x y w h) else none

/-- Embeds `Room::overlaps`, verbatim: with xmax = x + width (and likewise
ymax), test xmax1 >= xmin2 && xmax2 >= xmin1 && ymax1 >= ymin2 &&
ymax2 >= ymin1. -/
def Room.overlaps (a b : Room) : Bool :=
  decide (b.x ≤ a.x + a.width) && decide (a.x ≤ b.x + b.width) &&
    decide (b.y ≤ a.y + a.height) && decide (a.y ≤ b.y + b.height)

/-- Embeds `Room::walls`: the cells of the cached list on the rectangle
border, in scan order. -/
def Room.walls (r : Room) : List Location :=
  r.locs.filter fun l =>
    decide (l.x = r.x ∨ l.y = r.y ∨ l.x = r.x + r.width - 1 ∨ l.y = r.y + r.height - 1)

/-- Embeds `Room::floors`: the strictly interior cells, in scan order. -/
def Room.floors (r : Room) : List Location :=
  r.locs.filter fun l =>
    decide (r.x < l.x ∧ r.y < l.y ∧ l.x < r.x + r.width - 1 ∧ l.y < r.y + r.height - 1)

/-- One iteration of the room-proposal loop (world_map.rs lines 26-45):
draw width, height and an origin, build the room, and append it unless it
overlaps an already accepted room. -/
def proposeStep (w h : Int) (rooms : List Room) (rng : Rng) : Option (List Room × Rng) :=
  (genRange 3 15 rng).bind fun (rw, r1) =>
    (genRange 3 15 r1).bind fun (rh, r2) =>
      (genRange 0 (w - rw) r2).bind fun (rx, r3) =>
        (genRange 0 (h - rh) r3).bind fun (ry, r4) =>
          (roomNew rx ry rw rh).map fun room =>
            (if rooms.all fun c => !(c.overlaps room) then rooms ++ [room] else rooms, r4)

/-- The room-proposal loop, run for the given attempt budget (60 in the
source). -/
def proposeRooms (w h : Int) : Nat → List Room → Rng → Option (List Room × Rng)
  | 0, rooms, rng => some (rooms, rng)
  | n + 1, rooms, rng =>
    (proposeStep w h rooms rng).bind fun (rooms2, rng2) => proposeRooms w h n rooms2 rng2

/-- Stamp one room into the grid: Wall on every wall cell, then Floor on
every floor cell (world_map.rs lines 48-56). -/
def stampRoom (m : WorldMap) (r : Room) : Option WorldMap :=
  (r.walls.foldlM (fun w l => setTerrain w l Terrain.wall) m).bind fun m1 =>
    r.floors.foldlM (fun w l => setTerrain w l Terrain.floor) m1

/-- Stamp every accepted room, in acceptance order. -/
def stampRooms (m : WorldMap) (rooms : List Room) : Option WorldMap :=
  rooms.foldlM stampRoom m

/-- The empty grid allocated by `generate` followed by room proposal and
stamping: everything before the connection phase. -/
def phase1 (rng : Rng) (w h : Int) : Option (WorldMap × List Room × Rng) :=
  let world : WorldMap := ⟨w, h, List.replicate (w * h).toNat (Tile.new Terrain.nothing)⟩
  (proposeRooms w h 60 [] rng).bind fun (rooms, rng2) =>
    (stampRooms world rooms).map fun world2 => (world2, rooms, rng2)

/-- The type of the external astar crate's entry point, as an oracle: given
the map and the two endpoints it may return a path. -/
def AstarFn : Type := WorldMap → Location → Location → Option (List Location)

/-- The connection phase (world_map.rs lines 59-76), instrumented with a
ghost Bool recording whether the search returned a path: pick two rooms and
one wall cell of each, open both cells to Nothing, run the search; on
success mark every path cell Debug, on failure leave the grid as is. -/
def connectPhase (astarFn : AstarFn) (world : WorldMap) (rooms : List Room) (rng : Rng) :
    Option (WorldMap × Bool × Rng) :=
  (random rooms rng).bind fun (r1, rngA) =>
    (random r1.walls rngA).bind fun (w1, rngB) =>
      (random rooms rngB).bind fun (r2, rngC) =>
        (random r2.walls rngC).bind fun (w2, rngD) =>
          (setTerrain world w1 Terrain.nothing).bind fun world1 =>
            (setTerrain world1 w2 Terrain.nothing).bind fun world2 =>
              match astarFn world2 w1 w2 with
              | some path =>
                (path.foldlM (fun w l => setTerrain w l Terrain.debug) world2).map
                  fun world3 => (world3, true, rngD)
              | none => some (world2, false, rngD)

/-- The starting-location phase (world_map.rs line 79): a random floor cell
of a random room. -/
def startPhase (rooms : List Room) (rng : Rng) : Option (Location × Rng) :=
  (random rooms rng).bind fun (r, rngA) => random r.floors rngA

/-- Embeds `WorldMap::generate`, instrumented with the ghost path-found
flag: entry asserts on the dimensions, then the three phases in source
order. -/
def generateEx (astarFn : AstarFn) (rng : Rng) (w h : Int) :
    Option (WorldMap × Location × Bool) :=
  if 0 < w then
    if 0 < h then
      (phase1 rng w h).bind fun (world, rooms, rng1) =>
        (connectPhase astarFn world rooms rng1).bind fun (world2, found, rng2) =>
          (startPhase rooms rng2).map fun (sloc, _) => (world2, sloc, found)
    else none
  else none

/-- Embeds `WorldMap::generate`: the instrumented run with the ghost flag
projected away, so the result is exactly the source's (map, location) pair
(or a fault). -/
def generate (astarFn : AstarFn) (rng : Rng) (w h : Int) :
    Option (WorldMap × Location) :=
  (generateEx astarFn rng w h).map fun p => (p.1, p.2.1)

/-- Oracle for runs whose path search finds nothing. -/
def constNoneAstar : AstarFn := fun _ _ _ => none

/-- Oracle returning the trivial two-cell path, for success-shaped runs. -/
def pairAstar : AstarFn := fun _ s e => some [s, e]

/-- The all-zeros random source: every draw returns the low end of its
range.  It satisfies the uniform half-open range contract. -/
def rngZero : Rng := ⟨fun _ => 0, 0⟩

/-- A crafted random source for a 12x12 run: proposal 1 gives the 4x4 room
at (0,0), proposal 2 the 3x3 room at (8,8), all later proposals repeat a
rejected overlapping room; the connection phase then picks walls (0,0) and
(0,2) of the first room, and the starting phase picks its floor (1,1). -/
def rngTwoRooms : Rng :=
  ⟨fun n =>
    if n < 2 then 1
    else if n = 6 ∨ n = 7 then 8
    else if n = 243 then 2
    else 0, 0⟩

/-- A 2x2 all-Nothing grid, used for concrete tile-access counterexamples. -/
def g22 : WorldMap := ⟨2, 2, List.replicate 4 (Tile.new Terrain.nothing)⟩

/-- Embeds `struct Feature`: relative (Location, Terrain) components. -/
structure Feature where
  components : List (Location × Terrain)
deriving DecidableEq

/-- Embeds `enum HorizontalAlignment`. -/
inductive HorizontalAlignment where
  | left
  | center
  | right
deriving DecidableEq

/-- Embeds `enum VerticalAlignment`. -/
inductive VerticalAlignment where
  | top
  | center
  | bottom
deriving DecidableEq

/-- Embeds `struct FeatureBuilder`. -/
structure FeatureBuilder where
  components : List (Location × Terrain)
  location : Location
  horizAlign : HorizontalAlignment
  vertAlign : VerticalAlignment

/-- Embeds `FeatureBuilder::new` with its non-emptiness assert; the default
placement is (0,0) with Center/Center alignment. -/
def featureBuilderNew (comps : List (Location × Terrain)) : Option FeatureBuilder :=
  if 0 < comps.length then
    some ⟨comps, ⟨0, 0⟩, HorizontalAlignment.center, VerticalAlignment.center⟩
  else none

/-- Embeds `FeatureBuilder::build`: compute the component bounding box (the
min/max unwraps fault on an empty component list), derive the (dx, dy)
offset from the alignment rule, and translate every component.  Division is
on a non-negative numerator, where Rust's truncating division, floor
division and Lean's division all agree. -/
def FeatureBuilder.build (b : FeatureBuilder) : Option Feature :=
  match (b.components.map fun c => c.1.x).min?, (b.components.map fun c => c.1.x).max?,
      (b.components.map fun c => c.1.y).min?, (b.components.map fun c => c.1.y).max? with
  | some minX, some maxX, some minY, some maxY =>
    let horiz : Int :=
      match b.horizAlign with
      | HorizontalAlignment.left => b.location.x - minX
      | HorizontalAlignment.center => b.location.x - (minX + (maxX - minX + 1) / 2)
      | HorizontalAlignment.right => b.location.x - maxX
    let vert : Int :=
      match b.vertAlign with
      | VerticalAlignment.top => b.location.y - minY
      | VerticalAlignment.center => b.location.y - (minY + (maxY - minY + 1) / 2)
      | VerticalAlignment.bottom => b.location.y - maxY
    some ⟨b.components.map fun c => (⟨c.1.x + horiz, c.1.y + vert⟩, c.2)⟩
  | _, _, _, _ => none

/-- The spec's notion of inclusive bounding-box intersection: the two
closed coordinate ranges [x, x + width] (and [y, y + height]) meet in both
axes. -/
def boxIntersect (a b : Room) : Prop :=
  max a.x b.x ≤ min (a.x + a.width) (b.x + b.width) ∧
    max a.y b.y ≤ min (a.y + a.height) (b.y + b.height)

/-- The spec's description of the pathfinder adapter's neighbour set: the
four axis-aligned adjacent cells that are in bounds and whose terrain is
Nothing, each with edge cost 1. -/
def specNeighbors (m : WorldMap) (loc : Location) : List (Location × Int) :=
  (([⟨loc.x - 1, loc.y⟩, ⟨loc.x, loc.y - 1⟩, ⟨loc.x + 1, loc.y⟩, ⟨loc.x, loc.y + 1⟩] :
      List Location).filter fun l =>
    inBoundsB m l && decide (terrainAt m l = some Terrain.nothing)).map fun l => (l, 1)

/-- The 3x3 all-Wall square feature from the spec's Center/Center scenario. -/
def square3 : List (Location × Terrain) :=
  [(⟨0, 0⟩, Terrain.wall), (⟨1, 0⟩, Terrain.wall), (⟨2, 0⟩, Terrain.wall),
   (⟨0, 1⟩, Terrain.wall), (⟨1, 1⟩, Terrain.wall), (⟨2, 1⟩, Terrain.wall),
   (⟨0, 2⟩, Terrain.wall), (⟨1, 2⟩, Terrain.wall), (⟨2, 2⟩, Terrain.wall)]

/-- The spec's expected result of Center/Center placement of `square3` at
(4,1): the 3x3 block with top-left corner (3,0). -/
def square3Centered : List (Location × Terrain) :=
  [(⟨3, 0⟩, Terrain.wall), (⟨4, 0⟩, Terrain.wall), (⟨5, 0⟩, Terrain.wall),
   (⟨3, 1⟩, Terrain.wall), (⟨4, 1⟩, Terrain.wall), (⟨5, 1⟩, Terrain.wall),
   (⟨3, 2⟩, Terrain.wall), (⟨4, 2⟩, Terrain.wall), (⟨5, 2⟩, Terrain.wall)]

/-- No tile of the map has Debug terrain (true of every grid the generator
builds until a found path is marked). -/
def noDebug (m : WorldMap) : Bool :=
  m.tiles.all fun t => decide (t.terrain ≠ Terrain.debug)

/-- The two maps hold identical tiles at every buffer index other than the
two given ones. -/
def agreesExcept (a b : WorldMap) (i1 i2 : Nat) : Bool :=
  (List.range a.tiles.length).all fun i =>
    decide (i = i1) || decide (i = i2) || decide (a.tiles[i]? = b.tiles[i]?)

/-- The stamped world of the 12x12 run driven by `rngTwoRooms`. -/
def worldW : WorldMap :=
  ((phase1 rngTwoRooms 12 12).getD (⟨0, 0, []⟩, [], rngZero)).1

/-- The two accepted rooms of that run. -/
def roomsW : List Room := [Room.make 0 0 4 4, Room.make 8 8 3 3]

/-- The random source of that run after the proposal loop (240 draws). -/
def rngW1 : Rng := ⟨rngTwoRooms.stream, 240⟩

/-- The source after drawing the first room. -/
def rngW2 : Rng := ⟨rngTwoRooms.stream, 241⟩

/-- The source after drawing the first wall. -/
def rngW3 : Rng := ⟨rngTwoRooms.stream, 242⟩

/-- The source after drawing the second room. -/
def rngW4 : Rng := ⟨rngTwoRooms.stream, 243⟩

/-- The source after drawing the second wall. -/
def rngW5 : Rng := ⟨rngTwoRooms.stream, 244⟩

/-- The source after the starting-location draws. -/
def rngW6 : Rng := ⟨rngTwoRooms.stream, 246⟩

/-- The 12x12 run's world after opening the first doorway at (0,0). -/
def worldW1 : WorldMap :=
  (setTerrain worldW ⟨0, 0⟩ Terrain.nothing).getD ⟨0, 0, []⟩

/-- The 12x12 run's world after opening the second doorway at (0,2): the
grid returned when the path search fails. -/
def worldW2 : WorldMap :=
  (setTerrain worldW1 ⟨0, 2⟩ Terrain.nothing).getD ⟨0, 0, []⟩

/- ==================== THEOREMS ==================== -/

/-- C1: the element-selection operation draws its index from the half-open
range [0, len-1): selecting from a singleton sequence faults (the range is
empty, violating the lo < hi contract), and the last element of a longer
sequence is never returned, for every random source.  This contradicts the
claimed uniform selection; the code's own non-emptiness assert shows the
intent. -/
theorem iterRandom_skips_last_and_faults_on_singleton :
    random ([0] : List Nat) rngZero = none
    ∧ ∀ r : Rng, (random ([10, 20] : List Nat) r).map (fun p => p.1) = some 10 := by
  constructor
  · rfl
  · intro r
    simp [random, genRange, Rng.next, Nat.mod_one]

/-- C2: a run at width 40, height 40 with a contract-satisfying random
source faults: with the all-zeros source every proposal is the 3x3 room at
(0,0), exactly one room is accepted, and the connection phase's room
selection draws from the empty range [0, 0). -/
theorem generate_40x40_faults_for_some_seed :
    generate constNoneAstar rngZero 40 40 = none := by
  rfl

/-- C5 counterexample: width = 1, height = 1 pass the entry asserts, yet
generate faults in the first room proposal, whose origin range
[0, width - room_width) is empty; so width > 0 and height > 0 are not
sufficient preconditions. -/
theorem generate_faults_width_one :
    generate constNoneAstar rngZero 1 1 = none := by
  rfl

/-- C3 counterexample: on a 2x2 grid the location (2, 0) lies outside
[0,2) x [0,2), yet get_tile does not fault: its row-major index 0*2+2 = 2
is inside the buffer, aliasing the tile at (0, 1).  So faulting is not
equivalent to the location being out of bounds. -/
theorem getTile_no_fault_outside_bounds :
    inBoundsB g22 ⟨2, 0⟩ = false ∧ (g22.getTile ⟨2, 0⟩).isSome = true := by
  constructor
  · rfl
  · rfl

/-- Any member of a room's cached cell list lies inside the rectangle. -/
theorem mem_roomLocs_bounds {x y w h : Int} {l : Location} (hl : l ∈ roomLocs x y w h) :
    x ≤ l.x ∧ l.x < x + w ∧ y ≤ l.y ∧ l.y < y + h := by
  rw [roomLocs] at hl
  obtain ⟨i, hi, hl2⟩ := List.mem_flatMap.mp hl
  obtain ⟨j, hj, rfl⟩ := List.mem_map.mp hl2
  rw [List.mem_range] at hi
  rw [List.mem_range] at hj
  dsimp only
  simp only [Int.ofNat_eq_coe]
  omega

/-- On the cells of a room, the floor predicate is the negation of the wall
predicate. -/
theorem floor_pred_eq_not_wall_pred (x y w h : Int) (l : Location)
    (hl : l ∈ roomLocs x y w h) :
    decide (x < l.x ∧ y < l.y ∧ l.x < x + w - 1 ∧ l.y < y + h - 1) =
      !decide (l.x = x ∨ l.y = y ∨ l.x = x + w - 1 ∨ l.y = y + h - 1) := by
  have hb := mem_roomLocs_bounds hl
  rw [Bool.eq_iff_iff]
  simp only [decide_eq_true_eq, Bool.not_eq_true', decide_eq_false_iff_not]
  omega

/-- C9: for every room with x >= 0, y >= 0, width > 0, height > 0, the
walls() and floors() sequences are disjoint and together are exactly a
permutation of the room's full cell list: every covered cell appears in
exactly one of the two. -/
theorem walls_floors_partition (x y w h : Int)
    (_hx : 0 ≤ x) (_hy : 0 ≤ y) (_hw : 0 < w) (_hh : 0 < h) :
    ((Room.make x y w h).walls.all fun l =>
        !(decide (l ∈ (Room.make x y w h).floors))) = true
    ∧ ((Room.make x y w h).walls ++ (Room.make x y w h).floors).Perm
        (Room.make x y w h).locs := by
  have hfl : (Room.make x y w h).floors =
      (roomLocs x y w h).filter fun l =>
        !decide (l.x = x ∨ l.y = y ∨ l.x = x + w - 1 ∨ l.y = y + h - 1) := by
    simp only [Room.floors, Room.make]
    exact List.filter_congr fun l hl => floor_pred_eq_not_wall_pred x y w h l hl
  constructor
  · rw [List.all_eq_true]
    intro l hl
    simp only [Room.walls, Room.make, List.mem_filter] at hl
    obtain ⟨hmem, hpw⟩ := hl
    simp only [Bool.not_eq_true', decide_eq_false_iff_not]
    intro hfloor
    rw [hfl, List.mem_filter] at hfloor
    rw [hpw] at hfloor
    simp at hfloor
  · rw [hfl]
    simp only [Room.walls, Room.make]
    exact List.filter_append_perm _ _

/-- C9 witness: the partition property evaluated on the 3x3 room at the
origin. -/
theorem walls_floors_partition_witness :
    ((Room.make 0 0 3 3).walls.all fun l =>
        !(decide (l ∈ (Room.make 0 0 3 3).floors))) = true
    ∧ ((Room.make 0 0 3 3).walls ++ (Room.make 0 0 3 3).floors).Perm
        (Room.make 0 0 3 3).locs :=
  walls_floors_partition 0 0 3 3 (by decide) (by decide) (by decide) (by decide)

/-- C6: overlaps is symmetric; for rooms of positive size it holds exactly
when the closed bounding ranges [x, x+width] and [y, y+height] intersect
(inclusive comparison on all four edges); and the two edge-adjacent,
cell-disjoint 3x3 rooms at (0,0) and (3,0) do count as overlapping. -/
theorem overlaps_inclusive_box :
    (∀ a b : Room, a.overlaps b = b.overlaps a)
    ∧ (∀ a b : Room, 0 < a.width → 0 < a.height → 0 < b.width → 0 < b.height →
        (a.overlaps b = true ↔ boxIntersect a b))
    ∧ (Room.make 0 0 3 3).overlaps (Room.make 3 0 3 3) = true
    ∧ ((Room.make 0 0 3 3).locs.all fun l =>
        !(decide (l ∈ (Room.make 3 0 3 3).locs))) = true := by
  refine ⟨?_, ?_, by decide, by decide⟩
  · intro a b
    rw [Bool.eq_iff_iff]
    simp only [Room.overlaps, Bool.and_eq_true, decide_eq_true_eq]
    omega
  · intro a b h1 h2 h3 h4
    simp only [Room.overlaps, Bool.and_eq_true, decide_eq_true_eq, boxIntersect]
    omega

/-- C6 witness: the inclusive-intersection characterization instantiated at
two concrete positive-size rooms. -/
theorem overlaps_inclusive_box_witness :
    (Room.make 1 1 4 5).overlaps (Room.make 2 3 3 3) = true ↔
      boxIntersect (Room.make 1 1 4 5) (Room.make 2 3 3 3) :=
  overlaps_inclusive_box.2.1 (Room.make 1 1 4 5) (Room.make 2 3 3 3)
    (by decide) (by decide) (by decide) (by decide)

/-- C7: with Center/Center alignment, build translates every component by
dx = P.x - (minX + (maxX - minX + 1) / 2) and dy = P.y - (minY +
(maxY - minY + 1) / 2), preserving each component's Terrain; and the 3x3
all-filled square placed at (4,1) yields the 3x3 block with top-left
(3,0). -/
theorem build_center_translation :
    (∀ (comps : List (Location × Terrain)) (P : Location) (minX maxX minY maxY : Int),
      (comps.map fun c => c.1.x).min? = some minX →
      (comps.map fun c => c.1.x).max? = some maxX →
      (comps.map fun c => c.1.y).min? = some minY →
      (comps.map fun c => c.1.y).max? = some maxY →
      FeatureBuilder.build ⟨comps, P, HorizontalAlignment.center, VerticalAlignment.center⟩ =
        some ⟨comps.map fun c =>
          (⟨c.1.x + (P.x - (minX + (maxX - minX + 1) / 2)),
            c.1.y + (P.y - (minY + (maxY - minY + 1) / 2))⟩, c.2)⟩)
    ∧ FeatureBuilder.build ⟨square3, ⟨4, 1⟩, HorizontalAlignment.center,
        VerticalAlignment.center⟩ = some ⟨square3Centered⟩ := by
  constructor
  · intro comps P minX maxX minY maxY h1 h2 h3 h4
    simp only [FeatureBuilder.build, h1, h2, h3, h4]
  · decide

/-- C7 witness: the Center/Center translation rule applied to a concrete
two-component feature placed at (7,5). -/
theorem build_center_translation_witness :
    FeatureBuilder.build ⟨[(⟨1, 2⟩, Terrain.floor), (⟨2, 4⟩, Terrain.wall)], ⟨7, 5⟩,
        HorizontalAlignment.center, VerticalAlignment.center⟩ =
      some ⟨[(⟨6, 4⟩, Terrain.floor), (⟨7, 6⟩, Terrain.wall)]⟩ :=
  build_center_translation.1 [(⟨1, 2⟩, Terrain.floor), (⟨2, 4⟩, Terrain.wall)] ⟨7, 5⟩
    1 2 2 4 (by decide) (by decide) (by decide) (by decide)

/-- C3 (amended): in the regime where the source's i32 evaluation of the
row-major index y*width + x does not overflow (the intermediate product
loc.y * width and the sum both fit in i32, so debug and release builds
agree and the exact index model is faithful), tile access faults exactly
when that index falls outside [0, width*height): a negative index sign
extends under the cast to a value far beyond the buffer and always faults,
every in-bounds location is served the tile at that index without fault,
and an out-of-bounds location whose index lands in range aliases another
tile instead of faulting (see the counterexample); the mutable variant
faults under exactly the same condition.  Outside this regime the index
computation itself is build-dependent: overflow panic in debug, i32
wraparound in release. -/
theorem getTile_fault_characterization (m : WorldMap) (loc : Location) (t : Terrain)
    (hw : 0 < m.width) (hh : 0 < m.height)
    (hlen : (m.tiles.length : Int) = m.width * m.height)
    (hw31 : m.width ≤ 2 ^ 31) (hh31 : m.height ≤ 2 ^ 31)
    (_hprod : -(2 ^ 31) ≤ loc.y * m.width ∧ loc.y * m.width < 2 ^ 31)
    (hsum : -(2 ^ 31) ≤ tileIndex m.width loc ∧ tileIndex m.width loc < 2 ^ 31) :
    (m.getTile loc = none ↔
      ¬(0 ≤ tileIndex m.width loc ∧ tileIndex m.width loc < m.width * m.height))
    ∧ (inBoundsB m loc = true →
        m.getTile loc = m.tiles[(tileIndex m.width loc).toNat]?)
    ∧ (setTerrain m loc t = none ↔ m.getTile loc = none) := by
  have hwh : m.width * m.height ≤ 2 ^ 62 := by
    calc m.width * m.height ≤ 2 ^ 31 * 2 ^ 31 :=
          mul_le_mul hw31 hh31 (le_of_lt hh) (by positivity)
      _ = 2 ^ 62 := by norm_num
  obtain ⟨hs1, hs2⟩ := hsum
  have hkey : (castUsize (tileIndex m.width loc) < m.tiles.length) ↔
      (0 ≤ tileIndex m.width loc ∧ tileIndex m.width loc < m.width * m.height) := by
    unfold castUsize tileIndex
    unfold tileIndex at *
    omega
  refine ⟨?_, ?_, ?_⟩
  · have hfault : (m.getTile loc = none) ↔
        ¬ (castUsize (tileIndex m.width loc) < m.tiles.length) := by
      rw [WorldMap.getTile]
      split
      next hc => simp [hc]
      next hc => simp [hc]
    exact hfault.trans (not_congr hkey)
  · intro hin
    rw [inBoundsB, decide_eq_true_eq] at hin
    have h8 : 0 ≤ loc.y * m.width := mul_nonneg (by omega) (by omega)
    have h5 : (loc.y + 1) * m.width ≤ m.height * m.width :=
      mul_le_mul_of_nonneg_right (by omega) (by omega)
    have h6 : (loc.y + 1) * m.width = loc.y * m.width + m.width := by ring
    have h7 : m.height * m.width = m.width * m.height := by ring
    have hlt : castUsize (tileIndex m.width loc) < m.tiles.length := by
      unfold castUsize tileIndex; omega
    have heqidx : castUsize (tileIndex m.width loc) = (tileIndex m.width loc).toNat := by
      unfold castUsize tileIndex; omega
    rw [WorldMap.getTile]
    rw [dif_pos hlt]
    rw [List.getElem?_eq_getElem (heqidx ▸ hlt)]
    simp only [heqidx]
  · rw [WorldMap.getTile, setTerrain]
    split <;> simp

/-- C3 witness: the fault characterization instantiated on the 2x2 grid at
the in-bounds location (1,1), well inside the i32 no-overflow regime. -/
theorem getTile_fault_characterization_witness :
    (g22.getTile ⟨1, 1⟩ = none ↔
      ¬(0 ≤ tileIndex g22.width ⟨1, 1⟩ ∧ tileIndex g22.width ⟨1, 1⟩ < g22.width * g22.height))
    ∧ (inBoundsB g22 ⟨1, 1⟩ = true →
        g22.getTile ⟨1, 1⟩ = g22.tiles[(tileIndex g22.width ⟨1, 1⟩).toNat]?)
    ∧ (setTerrain g22 ⟨1, 1⟩ Terrain.wall = none ↔ g22.getTile ⟨1, 1⟩ = none) :=
  getTile_fault_characterization g22 ⟨1, 1⟩ Terrain.wall (by decide) (by decide)
    (by decide) (by decide) (by decide) (by decide) (by decide)

/-- A successful range draw is bounded by its range. -/
theorem genRange_cases (lo hi : Int) (r : Rng) (h : lo < hi) :
    ∃ v r2, genRange lo hi r = some (v, r2) ∧ lo ≤ v ∧ v < hi := by
  refine ⟨lo + ((r.stream r.pos % (hi - lo).toNat : Nat) : Int), ⟨r.stream, r.pos + 1⟩,
    by rw [genRange, if_pos h]; rfl, by omega, ?_⟩
  have hmod : r.stream r.pos % (hi - lo).toNat < (hi - lo).toNat :=
    Nat.mod_lt _ (by omega)
  omega

/-- Every single room-proposal attempt succeeds on a grid at least 16 wide
and 16 tall: the drawn dimensions lie in [3, 15), so the origin ranges
[0, width - room_width) and [0, height - room_height) are non-empty, and
the drawn values satisfy the room constructor's assert. -/
theorem proposeStep_isSome (w h : Int) (hw : 16 ≤ w) (hh : 16 ≤ h)
    (rooms : List Room) (rng : Rng) : (proposeStep w h rooms rng).isSome = true := by
  obtain ⟨rw1, r1, e1, hlo1, hhi1⟩ := genRange_cases 3 15 rng (by omega)
  rw [proposeStep, e1, Option.some_bind]
  dsimp only
  obtain ⟨rh1, r2, e2, hlo2, hhi2⟩ := genRange_cases 3 15 r1 (by omega)
  rw [e2, Option.some_bind]
  dsimp only
  obtain ⟨rx1, r3, e3, hlo3, hhi3⟩ := genRange_cases 0 (w - rw1) r2 (by omega)
  rw [e3, Option.some_bind]
  dsimp only
  obtain ⟨ry1, r4, e4, hlo4, hhi4⟩ := genRange_cases 0 (h - rh1) r3 (by omega)
  rw [e4, Option.some_bind]
  dsimp only
  rw [roomNew, if_pos ⟨by omega, by omega, by omega, by omega⟩]
  rfl

/-- C5 (amended): width > 0 and height > 0 are the entry asserts but are
not sufficient for a fault-free run (see the counterexample at 1x1); on
grids with width >= 16 and height >= 16 the whole room-proposal loop runs
without fault for every contract-satisfying random source and every attempt
budget. -/
theorem proposeRooms_total_on_large_grids (w h : Int) (hw : 16 ≤ w) (hh : 16 ≤ h)
    (n : Nat) (rooms : List Room) (rng : Rng) :
    (proposeRooms w h n rooms rng).isSome = true := by
  induction n generalizing rooms rng with
  | zero => rfl
  | succ k ih =>
    rw [proposeRooms]
    have hs := proposeStep_isSome w h hw hh rooms rng
    cases hstep : proposeStep w h rooms rng with
    | none => rw [hstep] at hs; exact absurd hs (by decide)
    | some out =>
      obtain ⟨rooms2, rng2⟩ := out
      rw [Option.some_bind]
      exact ih rooms2 rng2

/-- C5 witness: the proposal loop with the source's budget of 60 runs
without fault on a 16x16 grid with the all-zeros random source. -/
theorem proposeRooms_total_on_large_grids_witness :
    (proposeRooms 16 16 60 [] rngZero).isSome = true :=
  proposeRooms_total_on_large_grids 16 16 (by decide) (by decide) 60 [] rngZero

/-- A branch-based absolute difference equals the absolute value. -/
theorem if_sub_eq_abs (a b : Int) : (if b < a then a - b else b - a) = |a - b| := by
  rcases lt_or_ge b a with h | h
  · rw [if_pos h, abs_of_pos (by omega)]
  · rw [if_neg (not_lt.2 h), abs_of_nonpos (by omega), neg_sub]

/-- C8: for an in-bounds location, the pathfinder adapter's neighbour list
is exactly the axis-aligned in-bounds adjacent cells of Nothing terrain,
each with cost 1, and its heuristic is the Manhattan distance to the fixed
end location. -/
theorem neighbors_heuristic_spec (m : WorldMap) (loc e s : Location)
    (hin : inBoundsB m loc = true) :
    ConnectRooms.neighbors ⟨m, s, e⟩ loc = specNeighbors m loc
    ∧ ConnectRooms.heuristic ⟨m, s, e⟩ loc = |loc.x - e.x| + |loc.y - e.y| := by
  have hb : 0 ≤ loc.x ∧ loc.x < m.width ∧ 0 ≤ loc.y ∧ loc.y < m.height := by
    simpa [inBoundsB] using hin
  constructor
  · have e1 : inBoundsB m ⟨loc.x - 1, loc.y⟩ = decide (0 < loc.x) := by
      rw [Bool.eq_iff_iff]; simp only [inBoundsB, decide_eq_true_eq]; omega
    have e2 : inBoundsB m ⟨loc.x, loc.y - 1⟩ = decide (0 < loc.y) := by
      rw [Bool.eq_iff_iff]; simp only [inBoundsB, decide_eq_true_eq]; omega
    have e3 : inBoundsB m ⟨loc.x + 1, loc.y⟩ = decide (loc.x < m.width - 1) := by
      rw [Bool.eq_iff_iff]; simp only [inBoundsB, decide_eq_true_eq]; omega
    have e4 : inBoundsB m ⟨loc.x, loc.y + 1⟩ = decide (loc.y < m.height - 1) := by
      rw [Bool.eq_iff_iff]; simp only [inBoundsB, decide_eq_true_eq]; omega
    have hAdj : getAdjacent m loc =
        ([⟨loc.x - 1, loc.y⟩, ⟨loc.x, loc.y - 1⟩, ⟨loc.x + 1, loc.y⟩, ⟨loc.x, loc.y + 1⟩] :
          List Location).filter (inBoundsB m) := by
      by_cases c1 : 0 < loc.x <;> by_cases c2 : 0 < loc.y <;>
        by_cases c3 : loc.x < m.width - 1 <;> by_cases c4 : loc.y < m.height - 1 <;>
        simp [getAdjacent, List.filter_cons, e1, e2, e3, e4, c1, c2, c3, c4]
    rw [ConnectRooms.neighbors, neighborList, specNeighbors, hAdj, List.filter_filter]
    congr 1
    exact List.filter_congr fun l _ => Bool.and_comm _ _
  · simp only [ConnectRooms.heuristic, Location.manhattan, if_sub_eq_abs]

/-- C8 witness: the adapter evaluated at the centre of a 4x3 all-Nothing
grid with end location (3,2). -/
theorem neighbors_heuristic_spec_witness :
    ConnectRooms.neighbors ⟨⟨4, 3, List.replicate 12 (Tile.new Terrain.nothing)⟩,
        ⟨0, 0⟩, ⟨3, 2⟩⟩ ⟨1, 1⟩ =
      specNeighbors ⟨4, 3, List.replicate 12 (Tile.new Terrain.nothing)⟩ ⟨1, 1⟩
    ∧ ConnectRooms.heuristic ⟨⟨4, 3, List.replicate 12 (Tile.new Terrain.nothing)⟩,
        ⟨0, 0⟩, ⟨3, 2⟩⟩ ⟨1, 1⟩ = |(1 : Int) - 3| + |(1 : Int) - 2| :=
  neighbors_heuristic_spec ⟨4, 3, List.replicate 12 (Tile.new Terrain.nothing)⟩
    ⟨1, 1⟩ ⟨3, 2⟩ ⟨0, 0⟩ (by decide)

/-- A terrain write with a non-Debug terrain preserves Debug-freeness. -/
theorem setTerrain_noDebug {m m2 : WorldMap} {l : Location} {t : Terrain}
    (ht : t ≠ Terrain.debug) (h : setTerrain m l t = some m2) :
    noDebug m = true → noDebug m2 = true := by
  intro hm
  rw [setTerrain] at h
  split at h
  next hc =>
    cases h
    rw [noDebug, List.all_eq_true] at hm ⊢
    intro x hx
    rcases List.mem_or_eq_of_mem_set hx with h1 | h1
    · exact hm x h1
    · subst h1
      simp only [decide_eq_true_eq]
      exact ht
  next => exact absurd h (by simp)

/-- Folding non-Debug terrain writes over a cell list preserves
Debug-freeness. -/
theorem foldl_setTerrain_noDebug {t : Terrain} (ht : t ≠ Terrain.debug) :
    ∀ (ls : List Location) (m m2 : WorldMap),
      ls.foldlM (fun w l => setTerrain w l t) m = some m2 →
      noDebug m = true → noDebug m2 = true
  | [], m, m2, h, hm => by
    rw [List.foldlM_nil] at h
    cases h
    exact hm
  | l :: ls, m, m2, h, hm => by
    rw [List.foldlM_cons] at h
    cases hst : setTerrain m l t with
    | none =>
      rw [hst] at h
      exact absurd h (by simp [Bind.bind])
    | some m1 =>
      rw [hst] at h
      exact foldl_setTerrain_noDebug ht ls m1 m2 (by simpa [Bind.bind] using h)
        (setTerrain_noDebug ht hst hm)

/-- Stamping a room (walls then floors) preserves Debug-freeness. -/
theorem stampRoom_noDebug {m m2 : WorldMap} {r : Room} (h : stampRoom m r = some m2) :
    noDebug m = true → noDebug m2 = true := by
  intro hm
  rw [stampRoom] at h
  cases hw : r.walls.foldlM (fun w l => setTerrain w l Terrain.wall) m with
  | none => rw [hw] at h; exact absurd h (by simp)
  | some m1 =>
    rw [hw, Option.some_bind] at h
    exact foldl_setTerrain_noDebug (by decide) _ m1 m2 h
      (foldl_setTerrain_noDebug (by decide) _ m m1 hw hm)

/-- Stamping every accepted room preserves Debug-freeness. -/
theorem stampRooms_noDebug :
    ∀ (rooms : List Room) (m m2 : WorldMap),
      stampRooms m rooms = some m2 → noDebug m = true → noDebug m2 = true
  | [], m, m2, h, hm => by
    rw [stampRooms, List.foldlM_nil] at h
    cases h
    exact hm
  | r :: rs, m, m2, h, hm => by
    rw [stampRooms, List.foldlM_cons] at h
    cases hst : stampRoom m r with
    | none =>
      rw [hst] at h
      exact absurd h (by simp [Bind.bind])
    | some m1 =>
      rw [hst] at h
      exact stampRooms_noDebug rs m1 m2 (by simpa [Bind.bind, stampRooms] using h)
        (stampRoom_noDebug hst hm)

/-- The all-Nothing grid is Debug-free. -/
theorem noDebug_replicate (w h : Int) (n : Nat) :
    noDebug ⟨w, h, List.replicate n (Tile.new Terrain.nothing)⟩ = true := by
  rw [noDebug, List.all_eq_true]
  intro x hx
  rw [List.mem_replicate] at hx
  rw [hx.2]
  decide

/-- The grid produced by the proposal and stamp phases is Debug-free. -/
theorem phase1_noDebug {rng : Rng} {w h : Int} {world : WorldMap}
    {rooms : List Room} {rng1 : Rng}
    (hP : phase1 rng w h = some (world, rooms, rng1)) : noDebug world = true := by
  rw [phase1] at hP
  cases hp : proposeRooms w h 60 [] rng with
  | none => rw [hp] at hP; exact absurd hP (by simp)
  | some pr =>
    obtain ⟨rms, rng2⟩ := pr
    rw [hp, Option.some_bind] at hP
    dsimp only at hP
    cases hs : stampRooms ⟨w, h, List.replicate (w * h).toNat (Tile.new Terrain.nothing)⟩ rms with
    | none => rw [hs] at hP; exact absurd hP (by simp)
    | some world2 =>
      rw [hs, Option.map_some'] at hP
      cases hP
      exact stampRooms_noDebug _ _ _ hs (noDebug_replicate w h _)

/-- When every connection-phase draw succeeds and the path search fails,
the run completes: the connection phase returns the doorway-opened grid
with the ghost flag false, and generate returns that grid together with
the drawn starting location. -/
theorem generate_eq_of_connect_none
    (astarFn : AstarFn) (rng rng1 rngA rngB rngC rngD rngE : Rng) (w h : Int)
    (world world1 world2 : WorldMap) (rooms : List Room) (r1 r2 : Room)
    (w1 w2 sloc : Location)
    (hw : 0 < w) (hh : 0 < h)
    (hP : phase1 rng w h = some (world, rooms, rng1))
    (h1 : random rooms rng1 = some (r1, rngA))
    (h2 : random r1.walls rngA = some (w1, rngB))
    (h3 : random rooms rngB = some (r2, rngC))
    (h4 : random r2.walls rngC = some (w2, rngD))
    (h5 : setTerrain world w1 Terrain.nothing = some world1)
    (h6 : setTerrain world1 w2 Terrain.nothing = some world2)
    (h7 : astarFn world2 w1 w2 = none)
    (h8 : startPhase rooms rngD = some (sloc, rngE)) :
    connectPhase astarFn world rooms rng1 = some (world2, false, rngD)
    ∧ generate astarFn rng w h = some (world2, sloc) := by
  have hconn : connectPhase astarFn world rooms rng1 = some (world2, false, rngD) := by
    rw [connectPhase, h1, Option.some_bind]
    dsimp only
    rw [h2, Option.some_bind]
    dsimp only
    rw [h3, Option.some_bind]
    dsimp only
    rw [h4, Option.some_bind]
    dsimp only
    rw [h5, Option.some_bind, h6, Option.some_bind, h7]
  refine ⟨hconn, ?_⟩
  have hEx : generateEx astarFn rng w h = some (world2, sloc, false) := by
    rw [generateEx, if_pos hw, if_pos hh, hP, Option.some_bind]
    dsimp only
    rw [hconn, Option.some_bind]
    dsimp only
    rw [h8, Option.map_some']
  rw [generate, hEx, Option.map_some']

/-- C4 (amended): a run whose path search fails is non-fatal: generate
returns the plain (grid, location) pair with no explicit failure signal in
it, and the failure is observable only implicitly, by the absence of any
Debug-terrain tile in the returned grid. -/
theorem pathFailure_nonfatal_no_debug
    (astarFn : AstarFn) (rng rng1 rngA rngB rngC rngD rngE : Rng) (w h : Int)
    (world world1 world2 : WorldMap) (rooms : List Room) (r1 r2 : Room)
    (w1 w2 sloc : Location)
    (hw : 0 < w) (hh : 0 < h)
    (hP : phase1 rng w h = some (world, rooms, rng1))
    (h1 : random rooms rng1 = some (r1, rngA))
    (h2 : random r1.walls rngA = some (w1, rngB))
    (h3 : random rooms rngB = some (r2, rngC))
    (h4 : random r2.walls rngC = some (w2, rngD))
    (h5 : setTerrain world w1 Terrain.nothing = some world1)
    (h6 : setTerrain world1 w2 Terrain.nothing = some world2)
    (h7 : astarFn world2 w1 w2 = none)
    (h8 : startPhase rooms rngD = some (sloc, rngE)) :
    generate astarFn rng w h = some (world2, sloc) ∧ noDebug world2 = true := by
  obtain ⟨hconn, hgen⟩ := generate_eq_of_connect_none astarFn rng rng1 rngA rngB rngC rngD
    rngE w h world world1 world2 rooms r1 r2 w1 w2 sloc hw hh hP h1 h2 h3 h4 h5 h6 h7 h8
  refine ⟨hgen, ?_⟩
  exact setTerrain_noDebug (by decide) h6
    (setTerrain_noDebug (by decide) h5 (phase1_noDebug hP))

/-- C4 witness: the amended statement evaluated on the concrete 12x12
failing-search run. -/
theorem pathFailure_nonfatal_no_debug_witness :
    generate constNoneAstar rngTwoRooms 12 12 = some (worldW2, ⟨1, 1⟩)
    ∧ noDebug worldW2 = true :=
  pathFailure_nonfatal_no_debug constNoneAstar rngTwoRooms rngW1 rngW2 rngW3 rngW4 rngW5
    rngW6 12 12 worldW worldW1 worldW2 roomsW (Room.make 0 0 4 4) (Room.make 0 0 4 4)
    ⟨0, 0⟩ ⟨0, 2⟩ ⟨1, 1⟩ (by decide) (by decide) rfl rfl rfl rfl rfl rfl rfl rfl rfl

/-- C4 counterexample: the path-search outcome is not surfaced in the
returned value.  On the same 12x12 run, an oracle that finds no path and an
oracle that finds one both make generate return a plain some-(grid,
location) pair: the only failure channel of the embedded API (the fault
option) reports success in both cases, while the ghost instrumentation
flag shows the two searches really differed. -/
theorem pathFailure_not_surfaced_in_return :
    (generateEx constNoneAstar rngTwoRooms 12 12).map (fun p => p.2.2) = some false
    ∧ (generateEx pairAstar rngTwoRooms 12 12).map (fun p => p.2.2) = some true
    ∧ (generate constNoneAstar rngTwoRooms 12 12).isSome = true
    ∧ (generate pairAstar rngTwoRooms 12 12).isSome = true :=
  ⟨rfl, rfl, rfl, rfl⟩

/-- The tile access can be phrased through the total indexing operator:
out-of-range indices give none on both sides. -/
theorem getTile_eq_getElem? (m : WorldMap) (loc : Location) :
    m.getTile loc = m.tiles[castUsize (tileIndex m.width loc)]? := by
  rw [WorldMap.getTile]
  split
  next hc => rw [List.getElem?_eq_getElem hc]
  next hc => rw [List.getElem?_eq_none (by omega)]

/-- Inversion of a successful terrain write: dimensions are unchanged, the
buffer length is unchanged, the addressed index now holds the written
terrain, and every other index is untouched. -/
theorem setTerrain_facts {m m2 : WorldMap} {l : Location} {t : Terrain}
    (h : setTerrain m l t = some m2) :
    m2.width = m.width ∧ m2.height = m.height ∧ m2.tiles.length = m.tiles.length
    ∧ (m2.tiles[castUsize (tileIndex m.width l)]?).map Tile.terrain = some t
    ∧ ∀ i : Nat, i ≠ castUsize (tileIndex m.width l) → m2.tiles[i]? = m.tiles[i]? := by
  rw [setTerrain] at h
  split at h
  next hc =>
    cases h
    refine ⟨rfl, rfl, by simp [List.length_set], ?_, ?_⟩
    · dsimp only
      rw [List.getElem?_set]
      simp [hc]
    · intro i hi
      dsimp only
      rw [List.getElem?_set_ne (by omega)]
  next => exact absurd h (by simp)

/-- C10: when the path search fails, the two randomly chosen wall cells
keep terrain Nothing in the grid generate returns, and the connection
phase changes no other tile: the final grid agrees with the stamped grid
everywhere except at the two doorway indices. -/
theorem failed_connection_frame
    (astarFn : AstarFn) (rng rng1 rngA rngB rngC rngD rngE : Rng) (w h : Int)
    (world world1 world2 : WorldMap) (rooms : List Room) (r1 r2 : Room)
    (w1 w2 sloc : Location)
    (hw : 0 < w) (hh : 0 < h)
    (hP : phase1 rng w h = some (world, rooms, rng1))
    (h1 : random rooms rng1 = some (r1, rngA))
    (h2 : random r1.walls rngA = some (w1, rngB))
    (h3 : random rooms rngB = some (r2, rngC))
    (h4 : random r2.walls rngC = some (w2, rngD))
    (h5 : setTerrain world w1 Terrain.nothing = some world1)
    (h6 : setTerrain world1 w2 Terrain.nothing = some world2)
    (h7 : astarFn world2 w1 w2 = none)
    (h8 : startPhase rooms rngD = some (sloc, rngE)) :
    generate astarFn rng w h = some (world2, sloc)
    ∧ terrainAt world2 w1 = some Terrain.nothing
    ∧ terrainAt world2 w2 = some Terrain.nothing
    ∧ world2.tiles.length = world.tiles.length
    ∧ agreesExcept world world2 (castUsize (tileIndex world.width w1))
        (castUsize (tileIndex world.width w2)) = true := by
  obtain ⟨hconn, hgen⟩ := generate_eq_of_connect_none astarFn rng rng1 rngA rngB rngC rngD
    rngE w h world world1 world2 rooms r1 r2 w1 w2 sloc hw hh hP h1 h2 h3 h4 h5 h6 h7 h8
  obtain ⟨hw5, hh5, hl5, ht5, hf5⟩ := setTerrain_facts h5
  obtain ⟨hw6, hh6, hl6, ht6, hf6⟩ := setTerrain_facts h6
  rw [hw5] at hw6
  rw [hw5] at ht6
  rw [hw5] at hf6
  refine ⟨hgen, ?_, ?_, ?_, ?_⟩
  · rw [terrainAt, getTile_eq_getElem?, hw6]
    by_cases hii : castUsize (tileIndex world.width w1) = castUsize (tileIndex world.width w2)
    · rw [hii]
      exact ht6
    · rw [hf6 _ hii]
      exact ht5
  · rw [terrainAt, getTile_eq_getElem?, hw6]
    exact ht6
  · rw [hl6, hl5]
  · rw [agreesExcept, List.all_eq_true]
    intro i hi
    by_cases e1 : i = castUsize (tileIndex world.width w1)
    · simp [e1]
    · by_cases e2 : i = castUsize (tileIndex world.width w2)
      · simp [e2]
      · have heq : world2.tiles[i]? = world.tiles[i]? := by rw [hf6 i e2, hf5 i e1]
        simp [heq, e1, e2]

/-- C10 witness: the frame property evaluated on the concrete 12x12
failing-search run, whose doorways are (0,0) and (0,2). -/
theorem failed_connection_frame_witness :
    generate constNoneAstar rngTwoRooms 12 12 = some (worldW2, ⟨1, 1⟩)
    ∧ terrainAt worldW2 ⟨0, 0⟩ = some Terrain.nothing
    ∧ terrainAt worldW2 ⟨0, 2⟩ = some Terrain.nothing
    ∧ worldW2.tiles.length = worldW.tiles.length
    ∧ agreesExcept worldW worldW2 (castUsize (tileIndex worldW.width ⟨0, 0⟩))
        (castUsize (tileIndex worldW.width ⟨0, 2⟩)) = true :=
  failed_connection_frame constNoneAstar rngTwoRooms rngW1 rngW2 rngW3 rngW4 rngW5
    rngW6 12 12 worldW worldW1 worldW2 roomsW (Room.make 0 0 4 4) (Room.make 0 0 4 4)
    ⟨0, 0⟩ ⟨0, 2⟩ ⟨1, 1⟩ (by decide) (by decide) rfl rfl rfl rfl rfl rfl rfl rfl rfl

end Roguelike
